import Mathlib

/-!
Verification of the PhotoShare authentication/session core.

Shallow embedding of the auth slice of the repository:
  - src/auth/security.py        (password hashing via passlib bcrypt)
  - src/auth/utils.py           (JWT issue/decode via python-jose)
  - src/auth/token_blacklist.py (Redis-backed revocation store)
  - src/auth/dependencies.py    (get_current_user)
  - src/auth/routes.py          (signup, login, refresh, logout)
  - src/users/repository.py     (user store operations)
  - src/users/routes.py, src/admin/routes.py (ban / unban / deactivate / activate)

Modelling conventions:
  - Time is an integer count of Unix seconds (`Int`); `now` is threaded
    explicitly wherever the Python reads the clock.
  - A JWT is either `malformed` (any string that fails signature check or
    structural parsing under the server secret) or `signed sub exp`, i.e. a
    token whose signature verifies and whose payload carries an optional
    `sub` claim and an optional `exp` claim.  JWT encoding with a fixed
    secret and algorithm is deterministic, so payload equality coincides
    with token-string equality; the blacklist may therefore key on `Token`
    values directly.
  - python-jose `jwt.decode` (default options) validates `exp` when the
    claim is present: it raises `ExpiredSignatureError` (a `JWTError`) iff
    `exp < now`, with zero leeway.
  - Redis `SET key value EX ttl` keeps the key alive while
    `now <= setTime + ttl` (a key expires once the clock strictly passes
    its absolute expiry time); `SET` on an existing key replaces it.
  - The SQLAlchemy user table is a `List User`; `email` and `username` are
    unique, so `find?` models `scalar_one_or_none`.
-/

deriving instance DecidableEq for Except

namespace PhotoShare

/-- Roles, from `src/users/enums.py` (`RoleEnum`).  The `roles` table is
assumed seeded with the three role rows, so `get_role_by_name` is total and
a user's role is modelled as the enum value itself. -/
inductive RoleEnum
  | user
  | moderator
  | admin
deriving DecidableEq

/-! ## PasswordHasher — src/auth/security.py

`pwd_context = CryptContext(schemes=["bcrypt"])`.  The bcrypt algorithm
ignores every password byte past the 72nd: the digest depends only on the
salt and the first 72 bytes of the UTF-8 encoding.  We model a bcrypt
digest as the pair (salt, truncated key bytes), idealizing the digest as
injective in that pair. -/

/-- UTF-8 encoding of one Unicode code point (the standard 1–4 byte
encoding, as in `String.utf8EncodeChar`). -/
def utf8EncodeCharNat (n : Nat) : List Nat :=
  if n < 0x80 then
    [n]
  else if n < 0x800 then
    [0xC0 ||| (n >>> 6), 0x80 ||| (n &&& 0x3F)]
  else if n < 0x10000 then
    [0xE0 ||| (n >>> 12), 0x80 ||| ((n >>> 6) &&& 0x3F), 0x80 ||| (n &&& 0x3F)]
  else
    [0xF0 ||| (n >>> 18), 0x80 ||| ((n >>> 12) &&& 0x3F),
      0x80 ||| ((n >>> 6) &&& 0x3F), 0x80 ||| (n &&& 0x3F)]

/-- UTF-8 bytes of a password string. -/
def utf8Bytes (s : String) : List Nat :=
  s.data.flatMap (fun c => utf8EncodeCharNat c.toNat)

/-- bcrypt ignores password bytes beyond the 72nd. -/
def truncate72 (bs : List Nat) : List Nat :=
  bs.take 72

/-- An idealized bcrypt digest: the salt together with the (truncated)
password bytes it commits to. -/
structure BcryptHash where
  salt : Nat
  key : List Nat
deriving DecidableEq

/-- The bcrypt digest of an already-validated password: the stored salt
plus the first 72 bytes of the UTF-8 encoding (idealized as injective in
that pair). -/
def bcrypt_digest (salt : Nat) (password : String) : BcryptHash :=
  { salt := salt, key := truncate72 (utf8Bytes password) }

/-- The secret validation passlib performs in both `CryptContext.hash` and
`CryptContext.verify` with the bcrypt scheme: `validate_secret` raises
`PasswordSizeError` for secrets longer than `MAX_PASSWORD_SIZE = 4096`
characters, and the bcrypt backend then raises `NullPasswordError` for
passwords whose encoding contains a NUL byte.  Returns the raised error,
or `none` when the secret is acceptable. -/
def secretError? (password : String) : Option String :=
  if 4096 < password.length then
    some "password exceeds maximum allowed size"
  else if (utf8Bytes password).contains 0 then
    some "password must not contain null bytes"
  else
    none

/-- `get_password_hash` (src/auth/security.py): `pwd_context.hash` —
passlib secret validation (the exceptions above propagate uncaught: the
`.error` branch), then a salted bcrypt digest. -/
def get_password_hash (salt : Nat) (password : String) :
    Except String BcryptHash :=
  match secretError? password with
  | some e => .error e
  | none => .ok (bcrypt_digest salt password)

/-- bcrypt verification of a plaintext against a structurally well-formed
bcrypt hash: `CryptContext.verify` applies the same secret validation
(raising for NUL-containing or oversized plaintexts even against a valid
hash), then recomputes the digest with the stored salt and compares —
which in the idealized model succeeds iff the truncated password bytes
agree. -/
def bcrypt_checkpw (plain : String) (h : BcryptHash) : Except String Bool :=
  match secretError? plain with
  | some e => .error e
  | none => .ok (truncate72 (utf8Bytes plain) == h.key)

/-- A stored opaque hash string: either a parseable bcrypt hash or a string
passlib cannot identify as any configured scheme. -/
inductive HashStr
  | wellFormed (h : BcryptHash)
  | malformed (raw : String)
deriving DecidableEq

/-- `verify_password` (src/auth/security.py) delegates to
`CryptContext.verify`, which first identifies the hash — raising
`UnknownHashError` (a `ValueError`, message "hash could not be identified")
on a string matching no configured scheme, before any secret validation —
and then verifies the validated plaintext against it.  `verify_password`
catches nothing: every exceptional outcome is the `.error` branch. -/
def verify_password (plain : String) (hashed : HashStr) : Except String Bool :=
  match hashed with
  | .malformed _ => .error "hash could not be identified"
  | .wellFormed h => bcrypt_checkpw plain h

/-! ## User store — src/users/models.py, src/users/repository.py -/

/-- A row of the `users` table (src/users/models.py).  `created_at` and the
photo relationship play no role in the claims.  Stored hashes are always
outputs of `get_password_hash`, hence structurally well-formed. -/
structure User where
  id : Nat
  username : String
  email : String
  hashed_password : BcryptHash
  is_active : Bool
  role : RoleEnum
deriving DecidableEq

/-- `count_users` (src/users/repository.py): `SELECT count(*) FROM users`. -/
def count_users (db : List User) : Nat :=
  db.length

/-- `get_user_by_email` (src/users/repository.py). -/
def get_user_by_email (db : List User) (email : String) : Option User :=
  db.find? (fun u => u.email == email)

/-- `get_user_by_username` (src/users/repository.py). -/
def get_user_by_username (db : List User) (username : String) : Option User :=
  db.find? (fun u => u.username == username)

/-- `get_user_by_id` (src/users/repository.py). -/
def get_user_by_id (db : List User) (userId : Nat) : Option User :=
  db.find? (fun u => u.id == userId)

/-- Signup request body (src/users/schemas.py `UserCreate`). -/
structure UserCreate where
  username : String
  email : String
  password : String
deriving DecidableEq

/-- `create_user` (src/users/repository.py): hash the password first (a
passlib exception propagates uncaught: the `.error` branch), count the
existing users, give role `admin` exactly when the count is zero and `user`
otherwise, insert with `is_active` defaulted to true.  The primary key is
the autoincrement position in the table. -/
def create_user (db : List User) (salt : Nat) (data : UserCreate) :
    Except String (List User × User) :=
  match get_password_hash salt data.password with
  | .error e => .error e
  | .ok hashed =>
    let role := if count_users db == 0 then RoleEnum.admin else RoleEnum.user
    let newUser : User :=
      { id := db.length + 1
        username := data.username
        email := data.email
        hashed_password := hashed
        is_active := true
        role := role }
    .ok (db ++ [newUser], newUser)

/-- `toggle_user_active_status` (src/users/repository.py): set the
`is_active` flag of the given user row. -/
def toggle_user_active_status (db : List User) (userId : Nat)
    (isActive : Bool) : List User :=
  db.map (fun u => if u.id == userId then { u with is_active := isActive } else u)

/-! ## HTTP error outcomes -/

/-- The HTTP error outcomes raised by the auth core: the `HTTPException`
constructors, plus `internalServerError` for an exception (such as a
passlib error) propagating uncaught out of a handler, which the framework
surfaces as an HTTP 500. -/
inductive HttpError
  | unauthorized (detail : String)
  | forbidden (detail : String)
  | notFound (detail : String)
  | badRequest (detail : String)
  | conflict (detail : String)
  | internalServerError (detail : String)
deriving DecidableEq

/-! ## TokenCodec — src/auth/utils.py -/

/-- A bearer token string: `malformed` covers every string whose signature
or structure fails `jwt.decode` under the server secret; `signed sub exp`
is a well-signed token with its payload claims. -/
inductive Token
  | malformed (raw : String)
  | signed (sub : Option String) (exp : Option Int)
deriving DecidableEq

/-- `TokenData` (src/auth/schemas.py): `email: str | None = None`. -/
structure TokenData where
  email : Option String
deriving DecidableEq

/-- src/auth/utils.py: `ACCESS_TOKEN_EXPIRE_MINUTES = 30`. -/
def ACCESS_TOKEN_EXPIRE_MINUTES : Int := 30

/-- src/auth/utils.py: `REFRESH_TOKEN_EXPIRE_DAYS = 7`. -/
def REFRESH_TOKEN_EXPIRE_DAYS : Int := 7

/-- `create_access_token` (src/auth/utils.py): copy the payload (every call
site passes `{"sub": email}`) and set `exp = now + 30 minutes`. -/
def create_access_token (now : Int) (sub : String) : Token :=
  .signed (some sub) (some (now + ACCESS_TOKEN_EXPIRE_MINUTES * 60))

/-- `create_refresh_token` (src/auth/utils.py): same with
`exp = now + 7 days`. -/
def create_refresh_token (now : Int) (sub : String) : Token :=
  .signed (some sub) (some (now + REFRESH_TOKEN_EXPIRE_DAYS * 24 * 60 * 60))

/-- jose `_validate_exp`: an `exp` claim, when present, is expired iff
`exp < now` (zero leeway); a payload without `exp` never expires. -/
def expPassed (exp : Option Int) (now : Int) : Bool :=
  match exp with
  | none => false
  | some e => decide (e < now)

/-- `jose.jwt.decode(token, SECRET_KEY, algorithms=[ALGORITHM])` with
default options: fails (raises `JWTError`) on bad signature or structure,
and on an expired `exp` claim; otherwise returns the payload. -/
def jwt_decode (now : Int) (t : Token) : Option (Option String × Option Int) :=
  match t with
  | .malformed _ => none
  | .signed sub exp => if expPassed exp now then none else some (sub, exp)

/-- `decode_token` (src/auth/utils.py): `jwt.decode`, then `None` when the
payload lacks a `sub` claim, else `TokenData(email=sub)`; every `JWTError`
is caught and becomes `None`. -/
def decode_token (now : Int) (t : Token) : Option TokenData :=
  match jwt_decode now t with
  | none => none
  | some (sub, _) =>
    match sub with
    | none => none
    | some email => some { email := some email }

/-! ## RevocationStore — src/auth/token_blacklist.py -/

/-- One Redis blacklist entry: key `"blacklist:" ++ token` (tokens are in
bijection with their strings, so the key is the `Token` itself) with the
absolute time at which the key expires. -/
structure RevocationEntry where
  token : Token
  expiresAt : Int
deriving DecidableEq

/-- The Redis revocation store. -/
abbrev RevocationStore := List RevocationEntry

/-- Redis `SET name value EX ttl` at time `now`: the key lives until
`now + ttl`; setting an existing key replaces it. -/
def redis_set (store : RevocationStore) (t : Token) (ttl : Int) (now : Int) :
    RevocationStore :=
  { token := t, expiresAt := now + ttl } :: store.filter (fun e => !(e.token == t))

/-- Redis `EXISTS`: a key is alive while the clock has not strictly passed
its absolute expiry. -/
def redis_exists (store : RevocationStore) (t : Token) (now : Int) : Bool :=
  store.any (fun e => e.token == t && decide (now ≤ e.expiresAt))

/-- `add_token_to_blacklist` (src/auth/token_blacklist.py): decode the
token (`JWTError`, including expiry, is caught: no-op); no-op when the
payload has no `exp`; compute `ttl = exp - now` and store with that TTL
only when `ttl > 0`. -/
def add_token_to_blacklist (now : Int) (t : Token) (store : RevocationStore) :
    RevocationStore :=
  match jwt_decode now t with
  | none => store
  | some (_, exp) =>
    match exp with
    | none => store
    | some e =>
      let ttl := e - now
      if 0 < ttl then redis_set store t ttl now else store

/-- `is_token_blacklisted` (src/auth/token_blacklist.py). -/
def is_token_blacklisted (now : Int) (t : Token) (store : RevocationStore) :
    Bool :=
  redis_exists store t now

/-! ## SessionAuthenticator — src/auth/dependencies.py -/

/-- `get_current_user` (src/auth/dependencies.py): decode the token (401
generic on failure or missing email), then reject blacklisted tokens (401
"Token has been revoked"), then load the account by email (401 generic when
absent).  The `is_active` flag is never consulted here. -/
def get_current_user (now : Int) (db : List User) (store : RevocationStore)
    (t : Token) : Except HttpError User :=
  match decode_token now t with
  | none => .error (.unauthorized "Could not validate credentials")
  | some tokenData =>
    match tokenData.email with
    | none => .error (.unauthorized "Could not validate credentials")
    | some email =>
      if is_token_blacklisted now t store then
        .error (.unauthorized "Token has been revoked")
      else
        match get_user_by_email db email with
        | none => .error (.unauthorized "Could not validate credentials")
        | some user => .ok user

/-! ## AccountLifecycle — src/auth/routes.py -/

/-- `signup` (src/auth/routes.py): 409 on duplicate email, then 409 on
duplicate username, else `create_user` (whose passlib exception, if any,
propagates out of the handler as a 500). -/
def signup (db : List User) (salt : Nat) (data : UserCreate) :
    Except HttpError (List User × User) :=
  match get_user_by_email db data.email with
  | some _ => .error (.conflict "User with this email already exists")
  | none =>
    match get_user_by_username db data.username with
    | some _ => .error (.conflict "User with this username already exists")
    | none =>
      match create_user db salt data with
      | .error e => .error (.internalServerError e)
      | .ok r => .ok r

/-- `login` (src/auth/routes.py): look the account up by the submitted
identifier (`not user` short-circuits, so no verification runs for an
unknown identifier), 401 with one fixed message when absent or when the
password fails bcrypt verification, 403 when the account is inactive, else
mint one access and one refresh token.  Stored hashes are well-formed, so
the only passlib exception `verify_password` can raise here is the secret
validation one, which propagates uncaught (500). -/
def login (now : Int) (db : List User) (username password : String) :
    Except HttpError (Token × Token) :=
  match get_user_by_email db username with
  | none => .error (.unauthorized "Incorrect username or password")
  | some user =>
    match bcrypt_checkpw password user.hashed_password with
    | .error e => .error (.internalServerError e)
    | .ok verified =>
      if !verified then
        .error (.unauthorized "Incorrect username or password")
      else if !user.is_active then
        .error (.forbidden "User account is deactivated")
      else
        .ok (create_access_token now user.email, create_refresh_token now user.email)

/-- `refresh_tokens` (src/auth/routes.py): decode the presented token (401
generic on failure), load the account (401 "User not found" when absent),
403 when inactive, else mint a fresh access/refresh pair.  The handler
depends only on the request body and the database session — it never takes
the Redis client and never consults the blacklist. -/
def refresh_tokens (now : Int) (db : List User) (t : Token) :
    Except HttpError (Token × Token) :=
  match decode_token now t with
  | none => .error (.unauthorized "Could not validate credentials")
  | some tokenData =>
    match tokenData.email with
    | none => .error (.unauthorized "User not found")
    | some email =>
      match get_user_by_email db email with
      | none => .error (.unauthorized "User not found")
      | some user =>
        if !user.is_active then
          .error (.forbidden "User account is deactivated")
        else
          .ok (create_access_token now user.email, create_refresh_token now user.email)

/-- `logout` (src/auth/routes.py): the `get_current_user` dependency must
succeed first (its failure is the response and the store is untouched);
then the presented token is blacklisted. -/
def logout (now : Int) (db : List User) (store : RevocationStore) (t : Token) :
    Except HttpError Unit × RevocationStore :=
  match get_current_user now db store t with
  | .error e => (.error e, store)
  | .ok _ => (.ok (), add_token_to_blacklist now t store)

/-- The full mutable state the auth routes can reach: the user table and
the Redis revocation store. -/
structure AppState where
  users : List User
  blacklist : RevocationStore
deriving DecidableEq

/-- The `/auth/refresh` endpoint over the full application state: the
handler's dependencies are the request body and `get_db` only, so only the
user table is read. -/
def refresh_endpoint (now : Int) (st : AppState) (t : Token) :
    Except HttpError (Token × Token) :=
  refresh_tokens now st.users t

/-! ## Ban / unban / deactivate / activate —
src/users/routes.py, src/admin/routes.py

Each handler runs after an admin guard (`RoleChecker([RoleEnum.ADMIN])`
resp. `get_current_admin_user`) has produced the calling admin `User`.
Each returns the HTTP outcome together with the resulting user table. -/

/-- `ban_user` (src/users/routes.py): 404 when the username is unknown
(the source wraps the username of the detail message in single quotes),
400 when the target is the calling admin, else set `is_active := false`. -/
def ban_user (db : List User) (adminUser : User) (username : String) :
    Except HttpError User × List User :=
  match get_user_by_username db username with
  | none =>
    (.error (.notFound ("User with username " ++ username ++ " not found")), db)
  | some user =>
    if user.id == adminUser.id then
      (.error (.badRequest "Cannot change your own account status"), db)
    else
      (.ok { user with is_active := false },
        toggle_user_active_status db user.id false)

/-- `unban_user` (src/users/routes.py): 404 when the username is unknown,
400 when the target is the calling admin, else set `is_active := true`. -/
def unban_user (db : List User) (adminUser : User) (username : String) :
    Except HttpError User × List User :=
  match get_user_by_username db username with
  | none =>
    (.error (.notFound ("User with username " ++ username ++ " not found")), db)
  | some user =>
    if user.id == adminUser.id then
      (.error (.badRequest "Cannot change your own account status"), db)
    else
      (.ok { user with is_active := true },
        toggle_user_active_status db user.id true)

/-- Python `int(identifier)` on a route path segment: succeeds exactly on
decimal digit strings (ignoring the whitespace/sign normalization `int`
also performs, which no username or id in play exercises). -/
def parseNat? (s : String) : Option Nat :=
  if s.data ≠ [] ∧ ∀ c ∈ s.data, 48 ≤ c.toNat ∧ c.toNat ≤ 57 then
    some (s.data.foldl (fun n c => n * 10 + (c.toNat - 48)) 0)
  else none

/-- `_get_user_by_identifier` (src/admin/routes.py): interpret the path
segment as a numeric id when it parses as an integer, else as a username. -/
def get_user_by_identifier (db : List User) (identifier : String) :
    Option User :=
  match parseNat? identifier with
  | some userId => get_user_by_id db userId
  | none => get_user_by_username db identifier

/-- The 404 detail of src/admin/routes.py: re-parse the identifier to pick
the wording (the source additionally wraps the username in single
quotes). -/
def identifier_not_found_detail (identifier : String) : String :=
  match parseNat? identifier with
  | some userId => "User with ID " ++ toString userId ++ " not found"
  | none => "User with username " ++ identifier ++ " not found"

/-- `deactivate_user` (src/admin/routes.py): 404 when the identifier
resolves to no user, 400 when the target is the calling admin, else set
`is_active := false`. -/
def deactivate_user (db : List User) (adminUser : User) (identifier : String) :
    Except HttpError User × List User :=
  match get_user_by_identifier db identifier with
  | none =>
    (.error (.notFound (identifier_not_found_detail identifier)), db)
  | some user =>
    if user.id == adminUser.id then
      (.error (.badRequest "Cannot change your own account status"), db)
    else
      (.ok { user with is_active := false },
        toggle_user_active_status db user.id false)

/-- `activate_user` (src/admin/routes.py): 404 when the identifier resolves
to no user, 400 when the target is the calling admin, else set
`is_active := true`. -/
def activate_user (db : List User) (adminUser : User) (identifier : String) :
    Except HttpError User × List User :=
  match get_user_by_identifier db identifier with
  | none =>
    (.error (.notFound (identifier_not_found_detail identifier)), db)
  | some user =>
    if user.id == adminUser.id then
      (.error (.badRequest "Cannot change your own account status"), db)
    else
      (.ok { user with is_active := true },
        toggle_user_active_status db user.id true)

/-- The `exp` claim carried by a token, when the token is well-signed and
the claim present. -/
def tokenExp (t : Token) : Option Int :=
  match t with
  | .malformed _ => none
  | .signed _ exp => exp

/-- A concrete active account used to instantiate universally quantified
results on concrete inputs. -/
def demoUser : User :=
  { id := 1
    username := "u1"
    email := "a@b"
    hashed_password := bcrypt_digest 0 "pw"
    is_active := true
    role := RoleEnum.admin }

/-- A concrete deactivated account. -/
def demoBannedUser : User :=
  { id := 2
    username := "u2"
    email := "c@d"
    hashed_password := bcrypt_digest 0 "pw2"
    is_active := false
    role := RoleEnum.user }

/-- The first account of the concrete three-signup chain (id 1, role
admin, as `create_user` builds it from an empty table). -/
def w2u1 : User :=
  { id := 1
    username := "u1"
    email := "e1"
    hashed_password := bcrypt_digest 0 "p"
    is_active := true
    role := RoleEnum.admin }

/-- The second account of the chain (id 2, role user). -/
def w2u2 : User :=
  { id := 2
    username := "u2"
    email := "e2"
    hashed_password := bcrypt_digest 0 "p"
    is_active := true
    role := RoleEnum.user }

/-- The third account of the chain (id 3, role user). -/
def w2u3 : User :=
  { id := 3
    username := "u3"
    email := "e3"
    hashed_password := bcrypt_digest 0 "p"
    is_active := true
    role := RoleEnum.user }

/-! ## Helper lemmas about the token codec -/

theorem decode_token_malformed (now : Int) (raw : String) :
    decode_token now (.malformed raw) = none := rfl

theorem decode_token_no_sub (now : Int) (exp : Option Int) :
    decode_token now (.signed none exp) = none := by
  cases h : expPassed exp now <;> simp [decode_token, jwt_decode, h]

theorem decode_token_expired (now e : Int) (sub : Option String) (h : e < now) :
    decode_token now (.signed sub (some e)) = none := by
  simp [decode_token, jwt_decode, expPassed, h]

theorem decode_token_valid (now e : Int) (s : String) (h : ¬ e < now) :
    decode_token now (.signed (some s) (some e)) = some { email := some s } := by
  simp [decode_token, jwt_decode, expPassed, h]

theorem add_token_to_blacklist_stale (now e : Int) (sub : Option String)
    (store : RevocationStore) (he : e ≤ now) :
    add_token_to_blacklist now (.signed sub (some e)) store = store := by
  rcases lt_or_eq_of_le he with hlt | heq
  · simp [add_token_to_blacklist, jwt_decode, expPassed, hlt]
  · subst heq
    simp [add_token_to_blacklist, jwt_decode, expPassed]

theorem add_token_to_blacklist_live (now e : Int) (sub : Option String)
    (store : RevocationStore) (he : now < e) :
    add_token_to_blacklist now (.signed sub (some e)) store
      = { token := .signed sub (some e), expiresAt := e }
          :: store.filter (fun en => !(en.token == .signed sub (some e))) := by
  have h1 : ¬ e < now := by omega
  have h2 : (0 : Int) < e - now := by omega
  simp [add_token_to_blacklist, jwt_decode, expPassed, h1, h2, redis_set]

theorem is_token_blacklisted_cons_self (now e : Int) (t : Token)
    (rest : RevocationStore) (h : now ≤ e) :
    is_token_blacklisted now t ({ token := t, expiresAt := e } :: rest)
      = true := by
  simp [is_token_blacklisted, redis_exists, h]

theorem create_user_ok_shape (db : List User) (salt : Nat) (data : UserCreate)
    (res : List User × User) (hok : create_user db salt data = .ok res) :
    res.1 = db ++ [res.2]
      ∧ res.2.role = (if db = [] then RoleEnum.admin else RoleEnum.user) := by
  cases hh : get_password_hash salt data.password with
  | error e => simp [create_user, hh] at hok
  | ok hashed =>
    simp only [create_user, hh, Except.ok.injEq] at hok
    subst hok
    cases db <;> simp [count_users]

theorem signup_ok_iff (db : List User) (salt : Nat) (data : UserCreate)
    (res : List User × User) :
    signup db salt data = .ok res ↔
      get_user_by_email db data.email = none
        ∧ get_user_by_username db data.username = none
        ∧ create_user db salt data = .ok res := by
  cases h1 : get_user_by_email db data.email with
  | some u => simp [signup, h1]
  | none =>
    cases h2 : get_user_by_username db data.username with
    | some u => simp [signup, h1, h2]
    | none =>
      cases h3 : create_user db salt data with
      | error e => simp [signup, h1, h2, h3]
      | ok r => simp [signup, h1, h2, h3]

/-! ## The claims -/

/-- C5 (counterexample): the claim "for all p1 ≠ p2,
verify(p2, hash(p1)) == false" is false on the code: bcrypt commits only to
the first 72 bytes of the password, so the distinct (validation-passing)
passwords p1 = 73 copies of the byte 0x61 and p2 = 72 copies of 0x61
followed by 0x62 verify against each other's hashes. -/
theorem C5_counterexample :
    String.mk (List.replicate 73 (Char.ofNat 97))
        ≠ String.mk (List.replicate 72 (Char.ofNat 97) ++ [Char.ofNat 98])
      ∧ get_password_hash 0 (String.mk (List.replicate 73 (Char.ofNat 97)))
        = .ok (bcrypt_digest 0 (String.mk (List.replicate 73 (Char.ofNat 97))))
      ∧ bcrypt_checkpw
          (String.mk (List.replicate 72 (Char.ofNat 97) ++ [Char.ofNat 98]))
          (bcrypt_digest 0 (String.mk (List.replicate 73 (Char.ofNat 97))))
        = .ok true := by
  exact ⟨by decide, by decide, by decide⟩

/-- C5 (amended): for passwords accepted by passlib secret validation (at
most 4096 characters, no NUL byte) hashing succeeds and verification of
the password against its own hash returns true; and verification of an
accepted p2 against the hash of p1 returns false whenever the 72-byte
truncations of the UTF-8 encodings of p1 and p2 differ (bcrypt ignores
bytes past the 72nd, so distinctness of the truncated byte strings, not of
the passwords, is what forces a mismatch); passwords failing validation
make both hash and verify raise instead. -/
theorem C5_bcrypt_roundtrip (salt : Nat) (p p1 p2 : String)
    (hp : secretError? p = none)
    (hp2 : secretError? p2 = none)
    (hne : truncate72 (utf8Bytes p1) ≠ truncate72 (utf8Bytes p2)) :
    (∃ h, get_password_hash salt p = .ok h ∧ bcrypt_checkpw p h = .ok true)
      ∧ (∀ h1, get_password_hash salt p1 = .ok h1 →
          bcrypt_checkpw p2 h1 = .ok false) := by
  constructor
  · refine ⟨bcrypt_digest salt p, ?_, ?_⟩
    · simp [get_password_hash, hp]
    · simp [bcrypt_checkpw, hp, bcrypt_digest]
  · intro h1 hok
    have hsh : h1 = bcrypt_digest salt p1 := by
      cases hsp : secretError? p1 with
      | some e => simp [get_password_hash, hsp] at hok
      | none =>
        simp only [get_password_hash, hsp, Except.ok.injEq] at hok
        exact hok.symm
    subst hsh
    simp only [bcrypt_checkpw, hp2, bcrypt_digest, Except.ok.injEq,
      beq_eq_false_iff_ne, ne_eq]
    exact fun h => hne h.symm

/-- C5 (witness): the round-trip theorem applied to concrete passwords. -/
theorem C5_bcrypt_roundtrip_witness :
    secretError? "alpha" = none
      ∧ truncate72 (utf8Bytes "alpha") ≠ truncate72 (utf8Bytes "beta")
      ∧ (∃ h, get_password_hash 3 "alpha" = .ok h
          ∧ bcrypt_checkpw "alpha" h = .ok true)
      ∧ bcrypt_checkpw "beta" (bcrypt_digest 3 "alpha") = .ok false := by
  refine ⟨by decide, by decide, ?_, ?_⟩
  · exact (C5_bcrypt_roundtrip 3 "alpha" "alpha" "beta"
      (by decide) (by decide) (by decide)).1
  · exact (C5_bcrypt_roundtrip 3 "alpha" "alpha" "beta"
      (by decide) (by decide) (by decide)).2
      (bcrypt_digest 3 "alpha") (by decide)

/-- C9 (counterexample): the claim that verify returns false on a malformed
hash is false on the code: `pwd_context.verify` raises `UnknownHashError`
(a `ValueError`, "hash could not be identified") on a hash string matching
no configured scheme, and `verify_password` does not catch it. -/
theorem C9_counterexample :
    verify_password "password" (HashStr.malformed "not-a-hash")
      = .error "hash could not be identified" := rfl

/-- C9 (amended): verify returns a boolean (never an exception) on every
structurally well-formed bcrypt hash for every plaintext passing passlib
secret validation; a malformed opaque hash makes it propagate the passlib
`UnknownHashError` (raised before secret validation) instead of returning
false; and even against a well-formed hash, a plaintext failing validation
(longer than 4096 characters, or containing a NUL byte) makes it propagate
`PasswordSizeError` resp. `NullPasswordError`. -/
theorem C9_verify_totality (plain : String) :
    (secretError? plain = none →
      ∀ h : BcryptHash, ∃ b : Bool,
        verify_password plain (.wellFormed h) = .ok b)
      ∧ (∀ raw : String,
        verify_password plain (.malformed raw)
          = .error "hash could not be identified")
      ∧ (∀ e, secretError? plain = some e →
        ∀ h : BcryptHash,
          verify_password plain (.wellFormed h) = .error e) := by
  refine ⟨?_, fun raw => rfl, ?_⟩
  · intro hval h
    exact ⟨truncate72 (utf8Bytes plain) == h.key,
      by simp [verify_password, bcrypt_checkpw, hval]⟩
  · intro e he h
    simp [verify_password, bcrypt_checkpw, he]

/-- C9 (witness): a validated plaintext gets a boolean against a
well-formed hash; a malformed hash raises the identification error; a
NUL-byte plaintext raises the null-password error even against a
well-formed hash. -/
theorem C9_verify_totality_witness :
    (∃ b : Bool,
        verify_password "pw" (.wellFormed (bcrypt_digest 0 "pw")) = .ok b)
      ∧ verify_password "pw" (HashStr.malformed "xyz")
        = .error "hash could not be identified"
      ∧ verify_password (String.mk [Char.ofNat 0])
          (.wellFormed (bcrypt_digest 0 "pw"))
        = .error "password must not contain null bytes" := by
  exact ⟨(C9_verify_totality "pw").1 (by decide) (bcrypt_digest 0 "pw"),
    (C9_verify_totality "pw").2.1 "xyz",
    (C9_verify_totality (String.mk [Char.ofNat 0])).2.2
      "password must not contain null bytes" (by decide) (bcrypt_digest 0 "pw")⟩

/-- C8: decoding a token minted by `create_access_token` for subject s, at
any time at which it has not yet expired, yields subject email s; and the
`exp` claim the token carries is exactly the issue time plus 30 minutes. -/
theorem C8_issue_decode_roundtrip (s : String) (issuedAt t : Int)
    (h : t ≤ issuedAt + 30 * 60) :
    decode_token t (create_access_token issuedAt s) = some { email := some s }
      ∧ tokenExp (create_access_token issuedAt s)
        = some (issuedAt + 30 * 60) := by
  constructor
  · exact decode_token_valid t (issuedAt + 30 * 60) s (by
      simp [ACCESS_TOKEN_EXPIRE_MINUTES] at *
      omega)
  · rfl

/-- C8 (witness): the round-trip at issue time 1000 for a concrete
subject. -/
theorem C8_issue_decode_roundtrip_witness :
    (1000 : Int) ≤ 1000 + 30 * 60
      ∧ decode_token 1000 (create_access_token 1000 "a@b")
        = some { email := some "a@b" }
      ∧ tokenExp (create_access_token 1000 "a@b") = some (1000 + 30 * 60) := by
  refine ⟨by decide, ?_, ?_⟩
  · exact (C8_issue_decode_roundtrip "a@b" 1000 1000 (by decide)).1
  · exact (C8_issue_decode_roundtrip "a@b" 1000 1000 (by decide)).2

/-- C7: `add_token_to_blacklist` leaves the store unchanged on an
unparsable token, on a payload without `exp`, and on a token whose `exp`
is not strictly in the future (which covers both the expired case, where
decoding itself fails, and the zero-remaining-lifetime case); and when
`exp` is strictly in the future it stores exactly one new entry, keyed by
the token, that expires at the token's `exp` — i.e. with TTL equal to the
token's remaining lifetime. -/
theorem C7_blacklist_characterization (now : Int) (store : RevocationStore) :
    (∀ raw, add_token_to_blacklist now (.malformed raw) store = store)
      ∧ (∀ sub, add_token_to_blacklist now (.signed sub none) store = store)
      ∧ (∀ sub e, e ≤ now →
          add_token_to_blacklist now (.signed sub (some e)) store = store)
      ∧ (∀ sub e, now < e →
          add_token_to_blacklist now (.signed sub (some e)) store
            = { token := .signed sub (some e), expiresAt := e }
                :: store.filter (fun en => !(en.token == .signed sub (some e)))) := by
  exact ⟨fun raw => rfl, fun sub => rfl,
    fun sub e he => add_token_to_blacklist_stale now e sub store he,
    fun sub e he => add_token_to_blacklist_live now e sub store he⟩

/-- C7 (witness): the characterization at time 100, over an empty store,
for a malformed token, an exp-less token, an expired token, a
zero-lifetime token and a live token. -/
theorem C7_blacklist_characterization_witness :
    add_token_to_blacklist 100 (.malformed "bad") [] = []
      ∧ add_token_to_blacklist 100 (.signed (some "a@b") none) [] = []
      ∧ add_token_to_blacklist 100 (.signed (some "a@b") (some 40)) [] = []
      ∧ add_token_to_blacklist 100 (.signed (some "a@b") (some 100)) [] = []
      ∧ add_token_to_blacklist 100 (.signed (some "a@b") (some 160)) []
        = [{ token := .signed (some "a@b") (some 160), expiresAt := 160 }] := by
  refine ⟨(C7_blacklist_characterization 100 []).1 "bad",
    (C7_blacklist_characterization 100 []).2.1 (some "a@b"),
    (C7_blacklist_characterization 100 []).2.2.1 (some "a@b") 40 (by decide),
    (C7_blacklist_characterization 100 []).2.2.1 (some "a@b") 100 (by decide),
    (C7_blacklist_characterization 100 []).2.2.2 (some "a@b") 160 (by decide)⟩

/-- C2: a successful signup assigns role admin exactly when the account
store was empty at creation time (and role user otherwise); in particular
three successive successful signups starting from the empty store receive
roles [admin, user, user]. -/
theorem C2_first_user_is_admin :
    (∀ (db : List User) (salt : Nat) (data : UserCreate) (res : List User × User),
        signup db salt data = .ok res →
          (res.2.role = RoleEnum.admin ↔ db = [])
            ∧ (db ≠ [] → res.2.role = RoleEnum.user))
      ∧ (∀ (s1 s2 s3 : Nat) (d1 d2 d3 : UserCreate)
            (db1 db2 db3 : List User) (u1 u2 u3 : User),
          signup [] s1 d1 = .ok (db1, u1) →
          signup db1 s2 d2 = .ok (db2, u2) →
          signup db2 s3 d3 = .ok (db3, u3) →
          u1.role = RoleEnum.admin
            ∧ u2.role = RoleEnum.user
            ∧ u3.role = RoleEnum.user) := by
  have hrole : ∀ (db : List User) (salt : Nat) (data : UserCreate)
      (res : List User × User), signup db salt data = .ok res →
        res.2.role = if db = [] then RoleEnum.admin else RoleEnum.user := by
    intro db salt data res hok
    rcases (signup_ok_iff db salt data res).mp hok with ⟨-, -, hres⟩
    exact (create_user_ok_shape db salt data res hres).2
  have hdb : ∀ (db : List User) (salt : Nat) (data : UserCreate)
      (res : List User × User), signup db salt data = .ok res →
        res.1 = db ++ [res.2] := by
    intro db salt data res hok
    rcases (signup_ok_iff db salt data res).mp hok with ⟨-, -, hres⟩
    exact (create_user_ok_shape db salt data res hres).1
  constructor
  · intro db salt data res hok
    have h := hrole db salt data res hok
    constructor
    · cases hdbe : db with
      | nil => simp [hdbe] at h; simp [h]
      | cons a l => simp [hdbe] at h; simp [h]
    · intro hne
      rw [h, if_neg hne]
  · intro s1 s2 s3 d1 d2 d3 db1 db2 db3 u1 u2 u3 h1 h2 h3
    have hr1 := hrole [] s1 d1 (db1, u1) h1
    have hs1 := hdb [] s1 d1 (db1, u1) h1
    simp at hr1 hs1
    have hne1 : db1 ≠ [] := by
      rw [hs1]
      exact List.cons_ne_nil _ _
    have hr2 := hrole db1 s2 d2 (db2, u2) h2
    rw [if_neg hne1] at hr2
    have hs2 := hdb db1 s2 d2 (db2, u2) h2
    simp only at hr2 hs2
    have hne2 : db2 ≠ [] := by
      rw [hs2, hs1]
      simp
    have hr3 := hrole db2 s3 d3 (db3, u3) h3
    rw [if_neg hne2] at hr3
    simp only at hr3
    exact ⟨hr1, hr2, hr3⟩

/-- C2 (witness): the signup chain u1, u2, u3 from the empty store,
evaluated concretely, yields roles [admin, user, user]. -/
theorem C2_first_user_is_admin_witness :
    w2u1.role = RoleEnum.admin
      ∧ w2u2.role = RoleEnum.user
      ∧ w2u3.role = RoleEnum.user := by
  exact C2_first_user_is_admin.2 0 0 0
    { username := "u1", email := "e1", password := "p" }
    { username := "u2", email := "e2", password := "p" }
    { username := "u3", email := "e3", password := "p" }
    [w2u1] [w2u1, w2u2] [w2u1, w2u2, w2u3] w2u1 w2u2 w2u3
    (by decide) (by decide) (by decide)

/-- C4 (counterexample): the claimed 401/403/tokens trichotomy is false on
the code for an existing account and a password that fails passlib secret
validation: submitting the one-character NUL password for the demo account
makes `verify_password` raise `NullPasswordError`, which `login` does not
catch — the request ends as a 500, not as any of the three claimed
outcomes. -/
theorem C4_counterexample :
    login 0 [demoUser] "a@b" (String.mk [Char.ofNat 0])
      = .error (.internalServerError "password must not contain null bytes") := by
  decide

/-- C4 (amended): for submissions whose password passes passlib secret
validation (at most 4096 characters, no NUL byte), login returns 401 with
the single message "Incorrect username or password" exactly when the
account is absent or the password fails bcrypt verification; it returns
403 "User account is deactivated" exactly when the account exists, the
password verifies and the account is inactive; and in the remaining case
it returns the freshly minted access/refresh pair.  For an existing
account and a password failing validation the passlib exception propagates
uncaught (500) instead. -/
theorem C4_login_characterization (now : Int) (db : List User)
    (uname pw : String) (hpw : secretError? pw = none) :
    (login now db uname pw
        = .error (.unauthorized "Incorrect username or password")
      ↔ get_user_by_email db uname = none
          ∨ ∃ u, get_user_by_email db uname = some u
              ∧ bcrypt_checkpw pw u.hashed_password = .ok false)
      ∧ (login now db uname pw
          = .error (.forbidden "User account is deactivated")
        ↔ ∃ u, get_user_by_email db uname = some u
            ∧ bcrypt_checkpw pw u.hashed_password = .ok true
            ∧ u.is_active = false)
      ∧ (∀ u, get_user_by_email db uname = some u →
          bcrypt_checkpw pw u.hashed_password = .ok true →
          u.is_active = true →
          login now db uname pw
            = .ok (create_access_token now u.email,
                create_refresh_token now u.email)) := by
  cases hu : get_user_by_email db uname with
  | none => simp [login, hu]
  | some u =>
    cases hb : truncate72 (utf8Bytes pw) == u.hashed_password.key with
    | false =>
      have hb' : ¬ truncate72 (utf8Bytes pw) = u.hashed_password.key := by
        simpa using hb
      simp [login, hu, bcrypt_checkpw, hpw, hb, hb']
    | true =>
      have hb' : truncate72 (utf8Bytes pw) = u.hashed_password.key := by
        simpa using hb
      cases ha : u.is_active with
      | false => simp [login, hu, bcrypt_checkpw, hpw, hb, hb', ha]
      | true => simp [login, hu, bcrypt_checkpw, hpw, hb, hb', ha]

/-- C4 (witness): the characterization applied to a two-user store: correct
password on the active account logs in; wrong password is the generic 401;
the deactivated account with its correct password is the 403. -/
theorem C4_login_characterization_witness :
    secretError? "pw" = none
      ∧ login 0 [demoUser, demoBannedUser] "a@b" "pw"
        = .ok (create_access_token 0 "a@b", create_refresh_token 0 "a@b")
      ∧ login 0 [demoUser, demoBannedUser] "a@b" "wrong"
        = .error (.unauthorized "Incorrect username or password")
      ∧ login 0 [demoUser, demoBannedUser] "c@d" "pw2"
        = .error (.forbidden "User account is deactivated") := by
  refine ⟨by decide, ?_, ?_, ?_⟩
  · exact (C4_login_characterization 0 [demoUser, demoBannedUser] "a@b" "pw"
      (by decide)).2.2 demoUser (by decide) (by decide) (by decide)
  · exact (C4_login_characterization 0 [demoUser, demoBannedUser] "a@b" "wrong"
      (by decide)).1.mpr (Or.inr ⟨demoUser, by decide, by decide⟩)
  · exact (C4_login_characterization 0 [demoUser, demoBannedUser] "c@d" "pw2"
      (by decide)).2.1.mpr ⟨demoBannedUser, by decide, by decide, by decide⟩

/-- C1: the authenticator rejects with the generic 401 message every token
that is structurally malformed or fails signature verification, lacks a
`sub` claim, or whose `exp` has passed; a decodable token found in the
revocation store is rejected with 401 "Token has been revoked"; a decodable
unrevoked token whose subject matches no account gets the generic 401; and
otherwise the account is returned — with no condition on its `is_active`
flag. -/
theorem C1_authenticator_cases (now : Int) (db : List User)
    (store : RevocationStore) :
    (∀ raw, get_current_user now db store (.malformed raw)
        = .error (.unauthorized "Could not validate credentials"))
      ∧ (∀ exp, get_current_user now db store (.signed none exp)
        = .error (.unauthorized "Could not validate credentials"))
      ∧ (∀ sub e, e < now →
          get_current_user now db store (.signed sub (some e))
            = .error (.unauthorized "Could not validate credentials"))
      ∧ (∀ t, (decode_token now t).isSome →
          is_token_blacklisted now t store = true →
          get_current_user now db store t
            = .error (.unauthorized "Token has been revoked"))
      ∧ (∀ s e, ¬ e < now →
          is_token_blacklisted now (.signed (some s) (some e)) store = false →
          get_user_by_email db s = none →
          get_current_user now db store (.signed (some s) (some e))
            = .error (.unauthorized "Could not validate credentials"))
      ∧ (∀ s e u, ¬ e < now →
          is_token_blacklisted now (.signed (some s) (some e)) store = false →
          get_user_by_email db s = some u →
          get_current_user now db store (.signed (some s) (some e)) = .ok u) := by
  refine ⟨?_, ?_, ?_, ?_, ?_, ?_⟩
  · intro raw
    simp [get_current_user, decode_token_malformed]
  · intro exp
    simp [get_current_user, decode_token_no_sub]
  · intro sub e he
    simp [get_current_user, decode_token_expired now e sub he]
  · intro t hdec hbl
    cases t with
    | malformed raw => rw [decode_token_malformed] at hdec; simp at hdec
    | signed sub exp =>
      cases sub with
      | none => rw [decode_token_no_sub] at hdec; simp at hdec
      | some s =>
        cases exp with
        | none => simp [get_current_user, decode_token, jwt_decode, expPassed, hbl]
        | some e =>
          by_cases he : e < now
          · rw [decode_token_expired now e (some s) he] at hdec
            simp at hdec
          · simp [get_current_user, decode_token_valid now e s he, hbl]
  · intro s e he hbl hu
    simp [get_current_user, decode_token_valid now e s he, hbl, hu]
  · intro s e u he hbl hu
    simp [get_current_user, decode_token_valid now e s he, hbl, hu]

/-- C1 (witness): the six cases evaluated on a concrete store holding one
active and one deactivated account and a one-entry revocation store;
notably the deactivated account is still returned by bare
authentication. -/
theorem C1_authenticator_cases_witness :
    get_current_user 100 [demoUser, demoBannedUser]
        [{ token := .signed (some "a@b") (some 200), expiresAt := 200 }]
        (.malformed "invalid.token.value")
        = .error (.unauthorized "Could not validate credentials")
      ∧ get_current_user 100 [demoUser, demoBannedUser]
        [{ token := .signed (some "a@b") (some 200), expiresAt := 200 }]
        (.signed none (some 200))
        = .error (.unauthorized "Could not validate credentials")
      ∧ get_current_user 100 [demoUser, demoBannedUser]
        [{ token := .signed (some "a@b") (some 200), expiresAt := 200 }]
        (.signed (some "a@b") (some 50))
        = .error (.unauthorized "Could not validate credentials")
      ∧ get_current_user 100 [demoUser, demoBannedUser]
        [{ token := .signed (some "a@b") (some 200), expiresAt := 200 }]
        (.signed (some "a@b") (some 200))
        = .error (.unauthorized "Token has been revoked")
      ∧ get_current_user 100 [demoUser, demoBannedUser]
        [{ token := .signed (some "a@b") (some 200), expiresAt := 200 }]
        (.signed (some "ghost@x") (some 200))
        = .error (.unauthorized "Could not validate credentials")
      ∧ get_current_user 100 [demoUser, demoBannedUser]
        [{ token := .signed (some "a@b") (some 200), expiresAt := 200 }]
        (.signed (some "c@d") (some 200))
        = .ok demoBannedUser := by
  refine ⟨?_, ?_, ?_, ?_, ?_, ?_⟩
  · exact (C1_authenticator_cases 100 [demoUser, demoBannedUser]
      [{ token := .signed (some "a@b") (some 200), expiresAt := 200 }]).1
      "invalid.token.value"
  · exact (C1_authenticator_cases 100 [demoUser, demoBannedUser]
      [{ token := .signed (some "a@b") (some 200), expiresAt := 200 }]).2.1
      (some 200)
  · exact (C1_authenticator_cases 100 [demoUser, demoBannedUser]
      [{ token := .signed (some "a@b") (some 200), expiresAt := 200 }]).2.2.1
      (some "a@b") 50 (by decide)
  · exact (C1_authenticator_cases 100 [demoUser, demoBannedUser]
      [{ token := .signed (some "a@b") (some 200), expiresAt := 200 }]).2.2.2.1
      (.signed (some "a@b") (some 200)) (by decide) (by decide)
  · exact (C1_authenticator_cases 100 [demoUser, demoBannedUser]
      [{ token := .signed (some "a@b") (some 200), expiresAt := 200 }]).2.2.2.2.1
      "ghost@x" 200 (by decide) (by decide) (by decide)
  · exact (C1_authenticator_cases 100 [demoUser, demoBannedUser]
      [{ token := .signed (some "a@b") (some 200), expiresAt := 200 }]).2.2.2.2.2
      "c@d" 200 demoBannedUser (by decide) (by decide) (by decide)

/-- C3 (counterexample): the claim fails at the expiry boundary.  With a
token issued at time 0 (so `exp = 1800`) and logout invoked at time 1800,
the token has not yet expired (authentication still succeeds, so logout
itself succeeds), but the remaining lifetime truncates to `ttl = 0`, the
blacklist write is skipped, and a subsequent authentication with the same
token at time 1800 returns the account instead of the claimed 401 "Token
has been revoked". -/
theorem C3_counterexample :
    (logout 1800 [demoUser] [] (create_access_token 0 "a@b")).1 = .ok ()
      ∧ (logout 1800 [demoUser] [] (create_access_token 0 "a@b")).2 = []
      ∧ get_current_user 1800 [demoUser]
          (logout 1800 [demoUser] [] (create_access_token 0 "a@b")).2
          (create_access_token 0 "a@b")
        = .ok demoUser := by
  exact ⟨by decide, by decide, by decide⟩

/-- C3 (amended): for an access token T of an existing active account,
not yet revoked, with logout invoked strictly before T's expiry second (so
the remaining lifetime is positive): authentication with T succeeds at
logout time; logout succeeds and records T with expiry equal to T's own
`exp` (TTL = remaining lifetime); and at every subsequent instant up to and
including T's expiry, authentication with T — and in particular a second
logout attempt with T — fails with 401 "Token has been revoked". -/
theorem C3_revocation_roundtrip (issuedAt logoutT : Int) (db : List User)
    (bl : RevocationStore) (email : String) (u : User)
    (hu : get_user_by_email db email = some u)
    (hactive : u.is_active = true)
    (hfresh : is_token_blacklisted logoutT
      (create_access_token issuedAt email) bl = false)
    (hlive : logoutT < issuedAt + 30 * 60) :
    get_current_user logoutT db bl (create_access_token issuedAt email) = .ok u
      ∧ (logout logoutT db bl (create_access_token issuedAt email)).1 = .ok ()
      ∧ (logout logoutT db bl (create_access_token issuedAt email)).2
        = { token := create_access_token issuedAt email,
            expiresAt := issuedAt + 30 * 60 }
            :: bl.filter
              (fun en => !(en.token == create_access_token issuedAt email))
      ∧ (∀ t2, logoutT ≤ t2 → t2 ≤ issuedAt + 30 * 60 →
          get_current_user t2 db
              (logout logoutT db bl (create_access_token issuedAt email)).2
              (create_access_token issuedAt email)
            = .error (.unauthorized "Token has been revoked")
          ∧ (logout t2 db
              (logout logoutT db bl (create_access_token issuedAt email)).2
              (create_access_token issuedAt email)).1
            = .error (.unauthorized "Token has been revoked")) := by
  have hT : create_access_token issuedAt email
      = Token.signed (some email) (some (issuedAt + 30 * 60)) := by
    simp [create_access_token, ACCESS_TOKEN_EXPIRE_MINUTES]
  rw [hT] at hfresh ⊢
  have hauth : get_current_user logoutT db bl
      (Token.signed (some email) (some (issuedAt + 30 * 60))) = .ok u := by
    rw [get_current_user,
      decode_token_valid logoutT (issuedAt + 30 * 60) email (by omega), hfresh]
    simp [hu]
  have hbl2 := add_token_to_blacklist_live logoutT (issuedAt + 30 * 60)
    (some email) bl (by omega)
  have hlogout : logout logoutT db bl
      (Token.signed (some email) (some (issuedAt + 30 * 60)))
      = (.ok (), add_token_to_blacklist logoutT
          (Token.signed (some email) (some (issuedAt + 30 * 60))) bl) := by
    rw [logout, hauth]
  refine ⟨hauth, by rw [hlogout], by rw [hlogout]; exact hbl2, ?_⟩
  intro t2 ht1 ht2
  have hblt : is_token_blacklisted t2
      (Token.signed (some email) (some (issuedAt + 30 * 60)))
      (logout logoutT db bl
        (Token.signed (some email) (some (issuedAt + 30 * 60)))).2 = true := by
    rw [hlogout]
    show is_token_blacklisted t2
      (Token.signed (some email) (some (issuedAt + 30 * 60)))
      (add_token_to_blacklist logoutT
        (Token.signed (some email) (some (issuedAt + 30 * 60))) bl) = true
    rw [hbl2]
    exact is_token_blacklisted_cons_self t2 (issuedAt + 30 * 60) _ _ ht2
  have hrej : get_current_user t2 db
      (logout logoutT db bl
        (Token.signed (some email) (some (issuedAt + 30 * 60)))).2
      (Token.signed (some email) (some (issuedAt + 30 * 60)))
      = .error (.unauthorized "Token has been revoked") := by
    rw [get_current_user,
      decode_token_valid t2 (issuedAt + 30 * 60) email (by omega), hblt]
    simp
  exact ⟨hrej, by rw [logout, hrej]⟩

/-- C3 (witness): issue at 0 for the demo account, logout at 60, then
authentication and a second logout at 100 both fail with the revoked
message. -/
theorem C3_revocation_roundtrip_witness :
    get_current_user 60 [demoUser] [] (create_access_token 0 "a@b")
        = .ok demoUser
      ∧ (logout 60 [demoUser] [] (create_access_token 0 "a@b")).1 = .ok ()
      ∧ get_current_user 100 [demoUser]
          (logout 60 [demoUser] [] (create_access_token 0 "a@b")).2
          (create_access_token 0 "a@b")
        = .error (.unauthorized "Token has been revoked")
      ∧ (logout 100 [demoUser]
          (logout 60 [demoUser] [] (create_access_token 0 "a@b")).2
          (create_access_token 0 "a@b")).1
        = .error (.unauthorized "Token has been revoked") := by
  have h := C3_revocation_roundtrip 0 60 [demoUser] [] "a@b" demoUser
    (by decide) (by decide) (by decide) (by decide)
  exact ⟨h.1, h.2.1, (h.2.2.2 100 (by decide) (by decide)).1,
    (h.2.2.2 100 (by decide) (by decide)).2⟩

/-- C6: the refresh endpoint reads only the user table — its outcome is
identical across any two application states with equal user tables, in
particular across any two revocation-store contents; and a signed,
non-expired token whose subject is an existing active account is refreshed
into a fresh access/refresh pair even when that very token is an access
token that has just been revoked (tokens carry only `sub` and `exp`, no
kind marker, and refresh never consults the revocation store). -/
theorem C6_refresh_ignores_revocation (now issuedAt : Int) (users : List User)
    (bl : RevocationStore) (email : String) (u : User)
    (hu : get_user_by_email users email = some u)
    (hactive : u.is_active = true)
    (hnotexp : now < issuedAt + 30 * 60) :
    (∀ (t : Token) (s1 s2 : AppState), s1.users = s2.users →
        refresh_endpoint now s1 t = refresh_endpoint now s2 t)
      ∧ is_token_blacklisted now (create_access_token issuedAt email)
          (add_token_to_blacklist now (create_access_token issuedAt email) bl)
        = true
      ∧ refresh_endpoint now
          { users := users,
            blacklist :=
              add_token_to_blacklist now (create_access_token issuedAt email) bl }
          (create_access_token issuedAt email)
        = .ok (create_access_token now u.email,
            create_refresh_token now u.email) := by
  have hT : create_access_token issuedAt email
      = Token.signed (some email) (some (issuedAt + 30 * 60)) := by
    simp [create_access_token, ACCESS_TOKEN_EXPIRE_MINUTES]
  refine ⟨?_, ?_, ?_⟩
  · intro t s1 s2 h12
    unfold refresh_endpoint
    rw [h12]
  · rw [hT,
      add_token_to_blacklist_live now (issuedAt + 30 * 60) (some email) bl
        (by omega)]
    exact is_token_blacklisted_cons_self now (issuedAt + 30 * 60) _ _ (by omega)
  · rw [hT]
    show refresh_tokens now users
        (Token.signed (some email) (some (issuedAt + 30 * 60)))
      = .ok (create_access_token now u.email, create_refresh_token now u.email)
    rw [refresh_tokens,
      decode_token_valid now (issuedAt + 30 * 60) email (by omega)]
    simp [hu, hactive]

/-- C6 (witness): a freshly revoked access token for the demo account is
still accepted by refresh at time 100 and yields a new pair. -/
theorem C6_refresh_ignores_revocation_witness :
    is_token_blacklisted 100 (create_access_token 0 "a@b")
        (add_token_to_blacklist 100 (create_access_token 0 "a@b") [])
      = true
      ∧ refresh_endpoint 100
          { users := [demoUser],
            blacklist :=
              add_token_to_blacklist 100 (create_access_token 0 "a@b") [] }
          (create_access_token 0 "a@b")
        = .ok (create_access_token 100 "a@b", create_refresh_token 100 "a@b") := by
  have h := C6_refresh_ignores_revocation 100 0 [demoUser] [] "a@b" demoUser
    (by decide) (by decide) (by decide)
  exact ⟨h.2.1, h.2.2⟩

/-- C10: each of the four administrative activation-toggle handlers (ban
and unban by username, deactivate and activate by id-or-username), when the
target resolves to the calling admin's own account, fails with 400 "Cannot
change your own account status" and returns the user table exactly as it
was — every stored field of every account unchanged. -/
theorem C10_self_ban_rejected (db : List User) (adminUser : User)
    (uname ident : String) :
    (∀ u, get_user_by_username db uname = some u → u.id = adminUser.id →
        ban_user db adminUser uname
          = (.error (.badRequest "Cannot change your own account status"), db))
      ∧ (∀ u, get_user_by_username db uname = some u → u.id = adminUser.id →
        unban_user db adminUser uname
          = (.error (.badRequest "Cannot change your own account status"), db))
      ∧ (∀ u, get_user_by_identifier db ident = some u → u.id = adminUser.id →
        deactivate_user db adminUser ident
          = (.error (.badRequest "Cannot change your own account status"), db))
      ∧ (∀ u, get_user_by_identifier db ident = some u → u.id = adminUser.id →
        activate_user db adminUser ident
          = (.error (.badRequest "Cannot change your own account status"), db)) := by
  refine ⟨?_, ?_, ?_, ?_⟩
  · intro u hu hid
    simp [ban_user, hu, hid]
  · intro u hu hid
    simp [unban_user, hu, hid]
  · intro u hu hid
    simp [deactivate_user, hu, hid]
  · intro u hu hid
    simp [activate_user, hu, hid]

/-- C10 (witness): the demo admin targeting their own username (resp. their
own numeric id) is rejected by all four handlers with the user table
returned intact. -/
theorem C10_self_ban_rejected_witness :
    ban_user [demoUser, demoBannedUser] demoUser "u1"
        = (.error (.badRequest "Cannot change your own account status"),
            [demoUser, demoBannedUser])
      ∧ unban_user [demoUser, demoBannedUser] demoUser "u1"
        = (.error (.badRequest "Cannot change your own account status"),
            [demoUser, demoBannedUser])
      ∧ deactivate_user [demoUser, demoBannedUser] demoUser "1"
        = (.error (.badRequest "Cannot change your own account status"),
            [demoUser, demoBannedUser])
      ∧ activate_user [demoUser, demoBannedUser] demoUser "1"
        = (.error (.badRequest "Cannot change your own account status"),
            [demoUser, demoBannedUser]) := by
  have h := C10_self_ban_rejected [demoUser, demoBannedUser] demoUser "u1" "1"
  exact ⟨h.1 demoUser (by decide) rfl, h.2.1 demoUser (by decide) rfl,
    h.2.2.1 demoUser (by decide) rfl, h.2.2.2 demoUser (by decide) rfl⟩

end PhotoShare
